import Mathlib

/-!
Shallow embedding of the avatar-generator expiry subsystem
(`src/expiry.py`, `src/avatar.py`, `src/constants.py`).

Time is modelled as an integer count of microseconds on the UTC axis
(Python `datetime` resolves to microseconds).  The filesystem is modelled
by two predicates on path strings: whether a regular file is present, and
whether an attempted `unlink` on it succeeds.  The pickled tracking file
is modelled by an inductive covering the cases the code distinguishes:
missing, unreadable bytes, a truncated in-place write, a pickle that is
not a list, and a list of entries.
-/

namespace Avatar

/-- Microseconds per day: `timedelta(days = d)` adds `d * usecPerDay`. -/
def usecPerDay : Int := 86400000000

/-- Microseconds per hour, for the concrete sweep scenario. -/
def usecPerHour : Int := 3600000000

/-- `Config.AVATAR_EXTENSION.value` from `constants.py`. -/
def avatarExt : String := ".png"

/-- A stored `expires_at` value as `cleanup_expired_avatars` sees it:
`dt aware t` is a pickled `datetime` (timezone-aware when `aware`), and
`txt parsed` is a non-`datetime` value whose `str()` form
`datetime.fromisoformat` either parses (to an aware or naive datetime)
or rejects with `ValueError` (`parsed = none`).  In both parses, `t` is
the UTC timestamp in microseconds that the value denotes once the code's
normalization is applied: for a naive datetime the code runs
`expires_at.replace(tzinfo=timezone.utc)`, i.e. reads the wall-clock
fields as UTC, and `t` is exactly that reading. -/
inductive EVal where
  | dt (aware : Bool) (t : Int)
  | txt (parsed : Option (Bool × Int))
deriving DecidableEq

/-- One element of the pickled tracking list.  `mk filepath expires_at`
is a dict carrying both keys; `malformed tag` is any element for which
`entry["filepath"]`, `entry["expires_at"]` or `Path(entry["filepath"])`
raises `KeyError` or `TypeError` (non-dict element, missing key, bad
field type) — the sweep catches these and skips the element. -/
inductive Entry where
  | mk (filepath : String) (expires_at : EVal)
  | malformed (tag : Nat)
deriving DecidableEq

/-- State of the tracking file on disk.  `badBytes` is an existing file
whose bytes make `pickle.load` raise one of the caught errors
(`UnpicklingError`, `IOError`, `EOFError`); `truncated intended` is the
incomplete serialization left behind when an in-place write of
`intended` was interrupted part-way (such bytes also fail to unpickle);
`nonList` is a valid pickle of a non-list value. -/
inductive StoreFile where
  | missing
  | badBytes
  | truncated (intended : List Entry)
  | nonList
  | list (entries : List Entry)
deriving DecidableEq

/-- `load_expiry_data` (expiry.py:9-38).  Returns the loaded list
together with a flag recording whether the warning branch ran.  A
missing file yields `[]` silently; unreadable or truncated bytes and a
non-list pickle yield `[]` with a warning; a list is returned as-is
(the `isinstance(data, list)` check does not inspect the elements). -/
def load_expiry_data (file : StoreFile) : List Entry × Bool :=
  match file with
  | .missing => ([], false)
  | .badBytes => ([], true)
  | .truncated _ => ([], true)
  | .nonList => ([], true)
  | .list l => (l, false)

/-- Outcome of one attempted write of the tracking file: success, the
`open("wb")` call itself failing (old bytes remain), or `pickle.dump`
failing after `open("wb")` already truncated the file (partial bytes of
the new serialization remain). -/
inductive WriteOutcome where
  | ok
  | failAtOpen
  | failMidWrite
deriving DecidableEq

/-- `save_expiry_data` (expiry.py:41-55).  `tracking_file.open("wb")`
truncates the file in place and `pickle.dump` then writes the new
serialization; the caught errors (`PicklingError`, `IOError`) produce a
printed warning (the returned flag) and the function returns normally.
There is no write-to-temporary-then-rename step in the source. -/
def save_expiry_data (data : List Entry) (file : StoreFile) (oc : WriteOutcome) :
    StoreFile × Bool :=
  match oc with
  | .ok => (.list data, false)
  | .failAtOpen => (file, true)
  | .failMidWrite => (.truncated data, true)

/-- `Path.absolute()` on a path string, with the working directory made
explicit: an already-absolute path is unchanged, a relative one is
resolved against `cwd`. -/
def absolute (cwd : String) (p : String) : String :=
  if p.startsWith "/" then p else cwd ++ "/" ++ p

/-- `add_expiry_tracking` (expiry.py:124-154).  A non-positive
`expiration_days` returns before touching the store; otherwise the
function computes `expires_at = now + timedelta(days=expiration_days)`,
loads the store, appends `{filepath: str(filepath.absolute()),
expires_at}` and saves.  Returns the resulting file state and the
save-warning flag. -/
def add_expiry_tracking (cwd : String) (filepath : String) (expiration_days : Int)
    (now : Int) (file : StoreFile) (oc : WriteOutcome) : StoreFile × Bool :=
  if expiration_days ≤ 0 then (file, false)
  else
    let expires_at := now + expiration_days * usecPerDay
    let data := (load_expiry_data file).1
    save_expiry_data (data ++ [.mk (absolute cwd filepath) (.dt true expires_at)]) file oc

/-- C3 counterexample: a store file that unpickles to a list whose sole
element is not record-like (e.g. the pickle of `[42]`) is returned
as-is by `load_expiry_data` — non-empty and without a warning — because
the code only checks `isinstance(data, list)`, contradicting the claim
that such a value yields an empty sequence with a logged warning. -/
theorem load_nonrecord_list_counterexample :
    load_expiry_data (.list [.malformed 0]) = ([.malformed 0], false) ∧
    (load_expiry_data (.list [.malformed 0])).1 ≠ [] ∧
    (load_expiry_data (.list [.malformed 0])).2 = false := by
  refine ⟨rfl, ?_, rfl⟩
  decide

/-- C3 (amended): `load_expiry_data` returns the empty sequence and does
not raise when the file is missing, and returns the empty sequence with
a logged warning when deserialization fails (unreadable or truncated
bytes) or yields a non-sequence value; a successfully deserialized list
is returned as-is even when its elements are not record-like, with
entry-level validation deferred to the sweep. -/
theorem load_resilience :
    load_expiry_data .missing = ([], false) ∧
    load_expiry_data .badBytes = ([], true) ∧
    load_expiry_data .nonList = ([], true) ∧
    (∀ l : List Entry, load_expiry_data (.truncated l) = ([], true)) ∧
    (∀ l : List Entry, load_expiry_data (.list l) = (l, false)) :=
  ⟨rfl, rfl, rfl, fun _ => rfl, fun _ => rfl⟩

/-- C4: with non-positive retention `add_expiry_tracking` is a no-op on
the persisted store; with positive retention (and a successful write) it
persists exactly the loaded store plus the single appended record
`{filepath: absolute(filepath), expires_at: now + days}`. -/
theorem add_expiry_tracking_spec (cwd fp : String) (d now : Int) (file : StoreFile)
    (oc : WriteOutcome) :
    (d ≤ 0 → add_expiry_tracking cwd fp d now file oc = (file, false)) ∧
    (0 < d → add_expiry_tracking cwd fp d now file .ok =
      (.list ((load_expiry_data file).1 ++
        [.mk (absolute cwd fp) (.dt true (now + d * usecPerDay))]), false)) := by
  constructor
  · intro h
    simp [add_expiry_tracking, h]
  · intro h
    simp [add_expiry_tracking, not_le.mpr h, save_expiry_data]

/-- C4 witness: concrete no-op at retention 0 and concrete append at
retention 2 days. -/
theorem add_expiry_tracking_spec_witness :
    add_expiry_tracking "/home" "a.png" 0 5 .missing .ok = (.missing, false) ∧
    add_expiry_tracking "/home" "a.png" 2 5 .missing .ok =
      (.list ((load_expiry_data .missing).1 ++
        [.mk (absolute "/home" "a.png") (.dt true (5 + 2 * usecPerDay))]), false) :=
  ⟨(add_expiry_tracking_spec "/home" "a.png" 0 5 .missing .ok).1 (by decide),
   (add_expiry_tracking_spec "/home" "a.png" 2 5 .missing .ok).2 (by decide)⟩

/-- C8 counterexample: saving a new list over an existing store with a
failure during `pickle.dump` leaves the truncated partial serialization
of the new data — a state that is neither the old content nor an absent
file — because the source truncates in place with `open("wb")` and has
no write-then-rename step. -/
theorem save_midwrite_counterexample :
    save_expiry_data [.mk "/avatars/new.png" (.dt true 1)]
        (.list [.mk "/avatars/old.png" (.dt true 0)]) .failMidWrite =
      (.truncated [.mk "/avatars/new.png" (.dt true 1)], true) ∧
    StoreFile.truncated [.mk "/avatars/new.png" (.dt true 1)] ≠
      .list [.mk "/avatars/old.png" (.dt true 0)] ∧
    StoreFile.truncated [.mk "/avatars/new.png" (.dt true 1)] ≠ .missing := by
  refine ⟨rfl, ?_, ?_⟩ <;> decide

/-- C8 (amended): `save_expiry_data` overwrites the store in place
(truncate-then-write, not write-then-rename), so a successful write
installs the new list, a failure at `open` leaves the old content, and a
failure mid-`dump` leaves a truncated partial write that a subsequent
load treats as empty; every failure produces a logged warning and the
function returns normally instead of raising. -/
theorem save_overwrite_behavior (data : List Entry) (file : StoreFile) :
    save_expiry_data data file .ok = (.list data, false) ∧
    save_expiry_data data file .failAtOpen = (file, true) ∧
    save_expiry_data data file .failMidWrite = (.truncated data, true) ∧
    (load_expiry_data (.truncated data)).1 = [] :=
  ⟨rfl, rfl, rfl, rfl⟩

/-- The filesystem as the sweep observes it: `isFile p` is
`Path(p).is_file()` and `unlinkOk p` tells whether an attempted
`Path(p).unlink()` succeeds (permissions, file in use, ...).  `unlink`
outcomes are a fixed property of the state: nothing in the tool changes
them between two immediately successive sweeps. -/
structure FS where
  isFile : String → Bool
  unlinkOk : String → Bool

/-- Effect of a successful `Path(p).unlink()`: the file is gone. -/
def deleteFile (fs : FS) (p : String) : FS :=
  ⟨fun q => if q = p then false else fs.isFile q, fs.unlinkOk⟩

/-- The normalization block of `cleanup_expired_avatars`
(expiry.py:86-96): a `datetime` is used directly, any other value is
parsed with `datetime.fromisoformat(str(...))` (`ValueError` makes the
entry unevaluable, `none`), and a naive result has UTC attached.  The
result is the UTC-microsecond timestamp compared against `now`. -/
def normalizeExpiresAt : EVal → Option Int
  | .dt _ t => some t
  | .txt (some (_, t)) => some t
  | .txt none => none

/-- One iteration of the `for entry in expiry_data` loop of
`cleanup_expired_avatars` (expiry.py:81-113): returns the entry kept for
`updated_data` (if any), the filesystem after the iteration, and the
contribution to `deleted_count`.  Malformed entries and entries with an
unparseable `expires_at` are skipped; an expired entry is deleted when
present and deletable, kept verbatim when deletion fails, and dropped
when the file is already gone; a non-expired entry is kept verbatim. -/
def sweepStep (now : Int) (e : Entry) (fs : FS) : Option Entry × FS × Nat :=
  match e with
  | .malformed _ => (none, fs, 0)
  | .mk fp ev =>
    match normalizeExpiresAt ev with
    | none => (none, fs, 0)
    | some t =>
      if t < now then
        if fs.isFile fp then
          if fs.unlinkOk fp then (none, deleteFile fs fp, 1)
          else (some (.mk fp ev), fs, 0)
        else (none, fs, 0)
      else (some (.mk fp ev), fs, 0)

/-- The whole loop of `cleanup_expired_avatars`, processing entries in
original order and threading the filesystem: returns
(`updated_data`, final filesystem, `deleted_count`). -/
def sweepList (now : Int) : List Entry → FS → List Entry × FS × Nat
  | [], fs => ([], fs, 0)
  | e :: rest, fs =>
    let s := sweepStep now e fs
    let r := sweepList now rest s.2.1
    (s.1.toList ++ r.1, r.2.1, s.2.2 + r.2.2)

/-- Observable outcome of one `cleanup_expired_avatars` call. -/
structure SweepResult where
  kept : List Entry
  fs : FS
  deleted : Nat
  store : StoreFile
  wrote : Bool

/-- `cleanup_expired_avatars` (expiry.py:58-121): loads the store and
returns immediately when the loaded list is empty; otherwise runs the
sweep loop and rewrites the tracking file only when `updated_data`
differs from the loaded list. -/
def cleanup_expired_avatars (now : Int) (fs : FS) (file : StoreFile)
    (oc : WriteOutcome) : SweepResult :=
  let data := (load_expiry_data file).1
  if data = [] then ⟨[], fs, 0, file, false⟩
  else
    let r := sweepList now data fs
    if r.1 = data then ⟨r.1, r.2.1, r.2.2, file, false⟩
    else ⟨r.1, r.2.1, r.2.2, (save_expiry_data r.1 file oc).1, true⟩

theorem sweepStep_fst (now : Int) (e : Entry) (fs : FS) :
    (sweepStep now e fs).1 = none ∨ (sweepStep now e fs).1 = some e := by
  cases e with
  | malformed tag => exact Or.inl rfl
  | mk fp ev =>
    cases hn : normalizeExpiresAt ev with
    | none => simp [sweepStep, hn]
    | some t =>
      simp only [sweepStep, hn]
      split
      · split
        · split
          · exact Or.inl rfl
          · exact Or.inr rfl
        · exact Or.inl rfl
      · exact Or.inr rfl

theorem sweepStep_unlinkOk (now : Int) (e : Entry) (fs : FS) :
    ((sweepStep now e fs).2.1).unlinkOk = fs.unlinkOk := by
  cases e with
  | malformed tag => rfl
  | mk fp ev =>
    cases hn : normalizeExpiresAt ev with
    | none => simp [sweepStep, hn]
    | some t =>
      simp only [sweepStep, hn]
      split
      · split
        · split
          · rfl
          · rfl
        · rfl
      · rfl

theorem sweepStep_isFile_mono (now : Int) (e : Entry) (fs : FS) (p : String)
    (h : ((sweepStep now e fs).2.1).isFile p = true) : fs.isFile p = true := by
  cases e with
  | malformed tag => exact h
  | mk fp ev =>
    cases hn : normalizeExpiresAt ev with
    | none => simpa [sweepStep, hn] using h
    | some t =>
      simp only [sweepStep, hn] at h
      split at h
      · split at h
        · split at h
          · simp only [deleteFile] at h
            split at h
            · exact absurd h (by simp)
            · exact h
          · exact h
        · exact h
      · exact h

theorem sweepList_unlinkOk (now : Int) (data : List Entry) (fs : FS) :
    ((sweepList now data fs).2.1).unlinkOk = fs.unlinkOk := by
  induction data generalizing fs with
  | nil => rfl
  | cons e rest ih =>
    simp only [sweepList]
    rw [ih, sweepStep_unlinkOk]

theorem sweepList_isFile_mono (now : Int) (data : List Entry) (fs : FS) (p : String)
    (h : ((sweepList now data fs).2.1).isFile p = true) : fs.isFile p = true := by
  induction data generalizing fs with
  | nil => exact h
  | cons e rest ih =>
    simp only [sweepList] at h
    exact sweepStep_isFile_mono now e fs p (ih _ h)

theorem sweepList_sublist (now : Int) (data : List Entry) (fs : FS) :
    (sweepList now data fs).1.Sublist data := by
  induction data generalizing fs with
  | nil => exact List.Sublist.refl []
  | cons e rest ih =>
    simp only [sweepList]
    rcases sweepStep_fst now e fs with h | h
    · rw [h]
      exact (ih _).cons e
    · rw [h]
      exact (ih _).cons₂ e

/-- An entry the sweep would actually delete against filesystem `fs`:
well-formed, evaluable, expired, file present, and unlink succeeding. -/
def canDelete (now : Int) (fs : FS) : Entry → Prop
  | .malformed _ => False
  | .mk fp ev =>
    match normalizeExpiresAt ev with
    | none => False
    | some t => t < now ∧ fs.isFile fp = true ∧ fs.unlinkOk fp = true

theorem sweepStep_of_not_canDelete (now : Int) (e : Entry) (fs : FS)
    (h : ¬ canDelete now fs e) :
    (sweepStep now e fs).2.1 = fs ∧ (sweepStep now e fs).2.2 = 0 := by
  cases e with
  | malformed tag => exact ⟨rfl, rfl⟩
  | mk fp ev =>
    cases hn : normalizeExpiresAt ev with
    | none => simp [sweepStep, hn]
    | some t =>
      simp only [canDelete, hn] at h
      simp only [sweepStep, hn]
      by_cases ht : t < now
      · by_cases hf : fs.isFile fp = true
        · by_cases hu : fs.unlinkOk fp = true
          · exact absurd ⟨ht, hf, hu⟩ h
          · simp [ht, hf, hu]
        · simp [ht, hf]
      · simp [ht]

theorem sweepList_of_cleansed (now : Int) (data : List Entry) (fs : FS)
    (h : ∀ e ∈ data, ¬ canDelete now fs e) :
    (sweepList now data fs).2.1 = fs ∧ (sweepList now data fs).2.2 = 0 := by
  induction data with
  | nil => exact ⟨rfl, rfl⟩
  | cons e rest ih =>
    have hstep := sweepStep_of_not_canDelete now e fs (h e (List.mem_cons_self e rest))
    have htail := ih fun x hx => h x (List.mem_cons_of_mem e hx)
    simp only [sweepList, hstep.1, hstep.2]
    exact ⟨htail.1, by rw [htail.2]⟩

theorem sweepList_cleanses (now : Int) (data : List Entry) (fs : FS) :
    ∀ e ∈ data, ¬ canDelete now ((sweepList now data fs).2.1) e := by
  induction data generalizing fs with
  | nil => intro e he; cases he
  | cons a rest ih =>
    intro e he
    rcases List.mem_cons.mp he with rfl | hmem
    · cases e with
      | malformed tag => simp [canDelete]
      | mk fp ev =>
        cases hn : normalizeExpiresAt ev with
        | none => simp [canDelete, hn]
        | some t =>
          simp only [canDelete, hn, sweepList]
          rintro ⟨ht, hf, hu⟩
          by_cases hf0 : fs.isFile fp = true
          · by_cases hu0 : fs.unlinkOk fp = true
            · -- the head step deletes the file; it cannot be present afterwards
              have hstep : (sweepStep now (.mk fp ev) fs).2.1 = deleteFile fs fp := by
                simp [sweepStep, hn, ht, hf0, hu0]
              rw [hstep] at hf
              have := sweepList_isFile_mono now rest (deleteFile fs fp) fp hf
              simp [deleteFile] at this
            · -- unlink keeps failing: unlinkOk is never modified
              have hstep : (sweepStep now (.mk fp ev) fs).2.1 = fs := by
                simp [sweepStep, hn, ht, hf0, hu0]
              rw [hstep, sweepList_unlinkOk] at hu
              exact hu0 hu
          · -- the file was already absent and is never recreated
            have hstep : (sweepStep now (.mk fp ev) fs).2.1 = fs := by
              simp [sweepStep, hn, ht, hf0]
            rw [hstep] at hf
            exact hf0 (sweepList_isFile_mono now rest fs fp hf)
    · simpa only [sweepList] using ih ((sweepStep now a fs).2.1) e hmem

theorem cleanup_fs_eq (now : Int) (fs : FS) (file : StoreFile) (oc : WriteOutcome) :
    (cleanup_expired_avatars now fs file oc).fs =
      (if (load_expiry_data file).1 = [] then fs
       else (sweepList now (load_expiry_data file).1 fs).2.1) := by
  simp only [cleanup_expired_avatars]
  split
  · rfl
  · split <;> rfl

theorem cleanup_store_load_subset (now : Int) (fs : FS) (file : StoreFile)
    (oc : WriteOutcome) :
    ∀ e ∈ (load_expiry_data (cleanup_expired_avatars now fs file oc).store).1,
      e ∈ (load_expiry_data file).1 := by
  simp only [cleanup_expired_avatars]
  split
  · intro e he; exact he
  · split
    · intro e he; exact he
    · cases oc with
      | ok =>
        intro e he
        exact (sweepList_sublist now _ fs).subset he
      | failAtOpen => intro e he; exact he
      | failMidWrite => intro e he; cases he

theorem cleanup_deleted_eq_zero_of_cleansed (now : Int) (fs : FS) (file : StoreFile)
    (oc : WriteOutcome)
    (h : ∀ e ∈ (load_expiry_data file).1, ¬ canDelete now fs e) :
    (cleanup_expired_avatars now fs file oc).deleted = 0 := by
  have hz := sweepList_of_cleansed now (load_expiry_data file).1 fs h
  simp only [cleanup_expired_avatars]
  split
  · rfl
  · split <;> exact hz.2

/-- Path of the expired file in the concrete sweep scenario. -/
def f1path : String := "/avatars/f1.png"

/-- Path of the not-yet-expired file in the concrete sweep scenario. -/
def f2path : String := "/avatars/f2.png"

/-- Record expiring one hour before the scenario's `now = 0`. -/
def entryF1 : Entry := .mk f1path (.dt true (-usecPerHour))

/-- Record expiring one hour after the scenario's `now = 0`. -/
def entryF2 : Entry := .mk f2path (.dt true usecPerHour)

/-- Scenario filesystem: both files on disk, unlink succeeds. -/
def scenarioFS : FS := ⟨fun p => p == f1path || p == f2path, fun _ => true⟩

/-- C1: each loop iteration of the sweep behaves as specified on an
evaluable record — expired with the file present and deletable: deleted,
counted once and not kept; expired with the file present but deletion
failing: kept verbatim, not counted; expired with the file absent:
dropped without counting; not yet expired: kept verbatim — and on the
two-record scenario (f1 expired an hour ago, f2 expiring in an hour,
both on disk) the full sweep deletes exactly f1, keeps exactly the f2
record, persists it, and reports one deletion. -/
theorem sweep_cases_and_scenario (now t : Int) (fp : String) (ev : EVal) (fs : FS)
    (hn : normalizeExpiresAt ev = some t) :
    (t < now → fs.isFile fp = true → fs.unlinkOk fp = true →
      sweepStep now (.mk fp ev) fs = (none, deleteFile fs fp, 1)) ∧
    (t < now → fs.isFile fp = true → fs.unlinkOk fp = false →
      sweepStep now (.mk fp ev) fs = (some (.mk fp ev), fs, 0)) ∧
    (t < now → fs.isFile fp = false →
      sweepStep now (.mk fp ev) fs = (none, fs, 0)) ∧
    (¬ t < now →
      sweepStep now (.mk fp ev) fs = (some (.mk fp ev), fs, 0)) ∧
    ((cleanup_expired_avatars 0 scenarioFS (.list [entryF1, entryF2]) .ok).deleted = 1 ∧
      (cleanup_expired_avatars 0 scenarioFS (.list [entryF1, entryF2]) .ok).kept =
        [entryF2] ∧
      (cleanup_expired_avatars 0 scenarioFS (.list [entryF1, entryF2]) .ok).store =
        .list [entryF2] ∧
      (cleanup_expired_avatars 0 scenarioFS (.list [entryF1, entryF2]) .ok).fs.isFile
        f1path = false ∧
      (cleanup_expired_avatars 0 scenarioFS (.list [entryF1, entryF2]) .ok).fs.isFile
        f2path = true) := by
  refine ⟨?_, ?_, ?_, ?_, ?_, ?_, ?_, ?_, ?_⟩
  · intro ht hf hu
    simp [sweepStep, hn, ht, hf, hu]
  · intro ht hf hu
    simp [sweepStep, hn, ht, hf, hu]
  · intro ht hf
    simp [sweepStep, hn, ht, hf]
  · intro ht
    simp [sweepStep, hn, ht]
  · rfl
  · rfl
  · rfl
  · rfl
  · rfl

/-- C1 witness: concrete deletion of an expired record, and the concrete
scenario deletion count. -/
theorem sweep_cases_and_scenario_witness :
    sweepStep 0 (.mk f1path (.dt true (-1))) scenarioFS =
      (none, deleteFile scenarioFS f1path, 1) ∧
    (cleanup_expired_avatars 0 scenarioFS (.list [entryF1, entryF2]) .ok).deleted = 1 :=
  ⟨(sweep_cases_and_scenario 0 (-1) f1path (.dt true (-1)) scenarioFS rfl).1
      (by decide) (by decide) rfl,
    (sweep_cases_and_scenario 0 (-1) f1path (.dt true (-1)) scenarioFS rfl).2.2.2.2.1⟩

/-- C2: the sweep is idempotent — an immediately repeated
`cleanup_expired_avatars` call (same `now`, starting from the filesystem
and tracking file the first call produced, whatever the write outcomes)
deletes nothing on the second run. -/
theorem sweep_idempotent (now : Int) (fs : FS) (file : StoreFile)
    (oc1 oc2 : WriteOutcome) :
    (cleanup_expired_avatars now
      (cleanup_expired_avatars now fs file oc1).fs
      (cleanup_expired_avatars now fs file oc1).store oc2).deleted = 0 := by
  apply cleanup_deleted_eq_zero_of_cleansed
  intro e he
  have hmem := cleanup_store_load_subset now fs file oc1 e he
  rw [cleanup_fs_eq]
  split
  · next h => rw [h] at hmem; cases hmem
  · exact sweepList_cleanses now _ fs e hmem

/-- C6: expiry is strict — a record whose normalized `expires_at` equals
`now` is not expired and is kept unchanged, one whose normalized
`expires_at` is any amount before `now` is expired (deleted when the
file is present and deletable), and a naive stored timestamp normalizes
to the same UTC instant as the corresponding aware one. -/
theorem expiry_boundary_strict (now t : Int) (fp : String) (ev evE : EVal) (fs : FS) :
    (normalizeExpiresAt ev = some now →
      sweepStep now (.mk fp ev) fs = (some (.mk fp ev), fs, 0)) ∧
    (normalizeExpiresAt evE = some t → t < now →
      fs.isFile fp = true → fs.unlinkOk fp = true →
      (sweepStep now (.mk fp evE) fs).1 = none ∧
      (sweepStep now (.mk fp evE) fs).2.2 = 1) ∧
    normalizeExpiresAt (.dt false t) = normalizeExpiresAt (.dt true t) := by
  refine ⟨?_, ?_, rfl⟩
  · intro hn
    simp [sweepStep, hn, lt_irrefl]
  · intro hn ht hf hu
    simp [sweepStep, hn, ht, hf, hu]

/-- C6 witness: at `now = 0`, an aware record expiring exactly at 0 is
kept; a naive record one microsecond earlier is deleted. -/
theorem expiry_boundary_strict_witness :
    sweepStep 0 (.mk f1path (.dt true 0)) scenarioFS =
      (some (.mk f1path (.dt true 0)), scenarioFS, 0) ∧
    (sweepStep 0 (.mk f1path (.dt false (-1))) scenarioFS).1 = none ∧
    (sweepStep 0 (.mk f1path (.dt false (-1))) scenarioFS).2.2 = 1 :=
  ⟨(expiry_boundary_strict 0 0 f1path (.dt true 0) (.dt true 0) scenarioFS).1 rfl,
    (expiry_boundary_strict 0 (-1) f1path (.dt true 0) (.dt false (-1)) scenarioFS).2.1
      rfl (by decide) (by decide) rfl⟩

/-- C7: the sweep rewrites the tracking file only on mutation — an empty
loaded store returns without writing and with zero deletions; the write
happens exactly when the kept list differs from the loaded list; when no
write happens the file is untouched, and a successful write persists
precisely the kept list. -/
theorem sweep_write_only_on_mutation (now : Int) (fs : FS) (file : StoreFile)
    (oc : WriteOutcome) :
    ((load_expiry_data file).1 = [] →
      (cleanup_expired_avatars now fs file oc).store = file ∧
      (cleanup_expired_avatars now fs file oc).wrote = false ∧
      (cleanup_expired_avatars now fs file oc).deleted = 0) ∧
    ((cleanup_expired_avatars now fs file oc).wrote = true ↔
      (cleanup_expired_avatars now fs file oc).kept ≠ (load_expiry_data file).1) ∧
    ((cleanup_expired_avatars now fs file oc).wrote = false →
      (cleanup_expired_avatars now fs file oc).store = file) ∧
    ((cleanup_expired_avatars now fs file oc).wrote = true → oc = .ok →
      (cleanup_expired_avatars now fs file oc).store =
        .list (cleanup_expired_avatars now fs file oc).kept) := by
  simp only [cleanup_expired_avatars]
  split
  · next h =>
    refine ⟨fun _ => ⟨rfl, rfl, rfl⟩, ?_, fun _ => rfl, fun hw _ => absurd hw (by simp)⟩
    simp [h]
  · next h =>
    split
    · next hkeep =>
      refine ⟨fun hempty => absurd hempty h, ?_, fun _ => rfl,
        fun hw _ => absurd hw (by simp)⟩
      simp [hkeep]
    · next hkeep =>
      refine ⟨fun hempty => absurd hempty h, by simp [hkeep], ?_, ?_⟩
      · intro hw; exact absurd hw (by simp)
      · intro _ hoc
        subst hoc
        rfl

/-- C7 witness: an empty store is not rewritten; the concrete scenario
store mutates and the kept list is persisted. -/
theorem sweep_write_only_on_mutation_witness :
    ((cleanup_expired_avatars 0 scenarioFS .missing .ok).store = .missing ∧
      (cleanup_expired_avatars 0 scenarioFS .missing .ok).wrote = false ∧
      (cleanup_expired_avatars 0 scenarioFS .missing .ok).deleted = 0) ∧
    (cleanup_expired_avatars 0 scenarioFS (.list [entryF1, entryF2]) .ok).store =
      .list (cleanup_expired_avatars 0 scenarioFS (.list [entryF1, entryF2]) .ok).kept :=
  ⟨(sweep_write_only_on_mutation 0 scenarioFS .missing .ok).1 rfl,
    (sweep_write_only_on_mutation 0 scenarioFS (.list [entryF1, entryF2]) .ok).2.2.2
      (by decide) rfl⟩

/-- C10: the kept list is a subsequence of the loaded list — every kept
entry is one of the original entries, unmodified (normalization happens
only on the in-memory copy used for the comparison) and in the original
relative order; the sweep never inserts, rewrites or reorders entries. -/
theorem sweep_kept_sublist (now : Int) (fs : FS) (file : StoreFile)
    (oc : WriteOutcome) :
    ((cleanup_expired_avatars now fs file oc).kept).Sublist (load_expiry_data file).1 := by
  simp only [cleanup_expired_avatars]
  split
  · next h => rw [h]
  · split <;> exact sweepList_sublist now _ fs

/-- A direct child of the output directory as `iterdir` yields it:
its name, whether it is a regular file, and whether an attempted
`unlink` on it succeeds. -/
structure DirEntry where
  name : String
  isFile : Bool
  unlinkOk : Bool
deriving DecidableEq

/-- The output directory: whether `output_dir_path.is_dir()` holds and,
when it does, the entries `iterdir` yields in order. -/
structure DirState where
  dirExists : Bool
  entries : List DirEntry
deriving DecidableEq

/-- `PurePath.suffix` of a file name, as CPython computes it: the part
from the final dot, unless that dot is the first character or the last
character of the name. -/
def pathSuffix (name : String) : String :=
  let cs := name.toList
  match ((List.range cs.length).filter fun i => cs.getD i ' ' = '.').getLast? with
  | none => ""
  | some i => if 0 < i ∧ i + 1 < cs.length then String.mk (cs.drop i) else ""

/-- ASCII lowercasing of one character, as `str.lower` acts on the
ASCII range file extensions live in. -/
def asciiLower (c : Char) : Char :=
  if 65 ≤ c.toNat ∧ c.toNat ≤ 90 then Char.ofNat (c.toNat + 32) else c

/-- `str.lower()` on an extension string. -/
def lowerStr (s : String) : String :=
  String.mk (s.toList.map asciiLower)

/-- The deletion test of `cleanup_all_avatars` (expiry.py:179):
`item.is_file() and item.suffix.lower() == Config.AVATAR_EXTENSION.value`. -/
def isAvatarTarget (e : DirEntry) : Bool :=
  e.isFile && lowerStr (pathSuffix e.name) == avatarExt

/-- The `for item in output_dir_path.iterdir()` loop of
`cleanup_all_avatars` (expiry.py:178-188): returns `deleted_count`,
`skipped_count` and the entries still present afterwards, in order. -/
def wipeStep : List DirEntry → Nat × Nat × List DirEntry
  | [] => (0, 0, [])
  | e :: rest =>
    let r := wipeStep rest
    if isAvatarTarget e then
      if e.unlinkOk then (r.1 + 1, r.2.1, r.2.2)
      else (r.1, r.2.1 + 1, e :: r.2.2)
    else (r.1, r.2.1, e :: r.2.2)

/-- Observable outcome of one `cleanup_all_avatars` call. -/
structure WipeResult where
  deleted : Nat
  errors : Nat
  remaining : List DirEntry
  store : StoreFile
  warned : Bool
deriving DecidableEq

/-- `cleanup_all_avatars` (expiry.py:157-196): when the directory is
missing, deletes nothing and still writes an empty list to the tracking
file; otherwise deletes every regular-file child whose lowercased suffix
is the avatar extension (counting failures as skipped) and then writes
an empty list to the tracking file. -/
def cleanup_all_avatars (dir : DirState) (file : StoreFile) (oc : WriteOutcome) :
    WipeResult :=
  if dir.dirExists = false then
    ⟨0, 0, dir.entries, (save_expiry_data [] file oc).1, (save_expiry_data [] file oc).2⟩
  else
    ⟨(wipeStep dir.entries).1, (wipeStep dir.entries).2.1, (wipeStep dir.entries).2.2,
      (save_expiry_data [] file oc).1, (save_expiry_data [] file oc).2⟩

theorem wipeStep_eq (entries : List DirEntry) :
    wipeStep entries =
      (entries.countP (fun e => isAvatarTarget e && e.unlinkOk),
        entries.countP (fun e => isAvatarTarget e && !e.unlinkOk),
        entries.filter (fun e => !(isAvatarTarget e && e.unlinkOk))) := by
  induction entries with
  | nil => rfl
  | cons e rest ih =>
    by_cases ha : isAvatarTarget e = true
    · by_cases hu : e.unlinkOk = true
      · simp [wipeStep, ih, ha, hu, List.countP_cons, List.filter_cons]
      · simp [wipeStep, ih, ha, hu, List.countP_cons, List.filter_cons]
    · simp [wipeStep, ih, ha, List.countP_cons, List.filter_cons]

/-- C5: `cleanup_all_avatars` unconditionally persists the empty list —
whatever the directory looks like and whatever each per-file unlink did,
including a missing directory — so a subsequent load returns the empty
sequence.  A missing directory deletes nothing and reports 0 deleted and
0 errors.  An existing directory has exactly its regular-file children
with a case-insensitively matching extension and a succeeding unlink
deleted, each matching child with a failing unlink counted as an error,
and every other entry (in particular every non-matching file) left in
place. -/
theorem wipe_all_spec (dir : DirState) (file : StoreFile) :
    (cleanup_all_avatars dir file .ok).store = .list [] ∧
    (load_expiry_data (cleanup_all_avatars dir file .ok).store).1 = [] ∧
    (dir.dirExists = false →
      (cleanup_all_avatars dir file .ok).deleted = 0 ∧
      (cleanup_all_avatars dir file .ok).errors = 0 ∧
      (cleanup_all_avatars dir file .ok).remaining = dir.entries) ∧
    (dir.dirExists = true →
      (cleanup_all_avatars dir file .ok).deleted =
        dir.entries.countP (fun e => isAvatarTarget e && e.unlinkOk) ∧
      (cleanup_all_avatars dir file .ok).errors =
        dir.entries.countP (fun e => isAvatarTarget e && !e.unlinkOk) ∧
      (cleanup_all_avatars dir file .ok).remaining =
        dir.entries.filter (fun e => !(isAvatarTarget e && e.unlinkOk))) := by
  by_cases hd : dir.dirExists = false
  · refine ⟨by simp [cleanup_all_avatars, hd, save_expiry_data],
      by simp [cleanup_all_avatars, hd, save_expiry_data, load_expiry_data],
      fun _ => ?_, fun ht => absurd ht (by simp [hd])⟩
    simp [cleanup_all_avatars, hd]
  · refine ⟨by simp [cleanup_all_avatars, hd, save_expiry_data],
      by simp [cleanup_all_avatars, hd, save_expiry_data, load_expiry_data],
      fun hf => absurd hf hd, fun _ => ?_⟩
    simp [cleanup_all_avatars, hd, wipeStep_eq]

/-- Scenario directory for the C5 witness: three `.png` files (one with
an upper-case extension) and two `.txt` files, all deletable. -/
def wipeDir : DirState :=
  ⟨true, [⟨"a.png", true, true⟩, ⟨"b.PNG", true, true⟩, ⟨"c.png", true, true⟩,
    ⟨"notes.txt", true, true⟩, ⟨"todo.txt", true, true⟩]⟩

/-- Second scenario directory for the C5 witness: one of the `.png`
files cannot be unlinked, so the wipe has a per-file failure. -/
def wipeDirMixed : DirState :=
  ⟨true, [⟨"a.png", true, true⟩, ⟨"b.PNG", true, true⟩, ⟨"c.png", true, false⟩,
    ⟨"notes.txt", true, true⟩, ⟨"todo.txt", true, true⟩]⟩

/-- C5 witness: on the three-png/two-txt directory the wipe deletes
exactly 3 files, leaves the `.txt` entries, and clears the store; on the
variant where one `.png` resists deletion the wipe deletes 2, reports 1
error, and still clears the store. -/
theorem wipe_all_spec_witness :
    (cleanup_all_avatars wipeDir .nonList .ok).store = .list [] ∧
    (cleanup_all_avatars wipeDir .nonList .ok).deleted =
      wipeDir.entries.countP (fun e => isAvatarTarget e && e.unlinkOk) ∧
    wipeDir.entries.countP (fun e => isAvatarTarget e && e.unlinkOk) = 3 ∧
    (cleanup_all_avatars wipeDir .nonList .ok).errors = 0 ∧
    (cleanup_all_avatars wipeDir .nonList .ok).remaining =
      wipeDir.entries.filter (fun e => !(isAvatarTarget e && e.unlinkOk)) ∧
    wipeDir.entries.filter (fun e => !(isAvatarTarget e && e.unlinkOk)) =
      [⟨"notes.txt", true, true⟩, ⟨"todo.txt", true, true⟩] ∧
    (cleanup_all_avatars wipeDirMixed .nonList .ok).store = .list [] ∧
    (load_expiry_data (cleanup_all_avatars wipeDirMixed .nonList .ok).store).1 = [] ∧
    (cleanup_all_avatars wipeDirMixed .nonList .ok).deleted =
      wipeDirMixed.entries.countP (fun e => isAvatarTarget e && e.unlinkOk) ∧
    wipeDirMixed.entries.countP (fun e => isAvatarTarget e && e.unlinkOk) = 2 ∧
    (cleanup_all_avatars wipeDirMixed .nonList .ok).errors =
      wipeDirMixed.entries.countP (fun e => isAvatarTarget e && !e.unlinkOk) ∧
    wipeDirMixed.entries.countP (fun e => isAvatarTarget e && !e.unlinkOk) = 1 := by
  have h1 := wipe_all_spec wipeDir .nonList
  have h2 := wipe_all_spec wipeDirMixed .nonList
  have g1 := h1.2.2.2 rfl
  have g2 := h2.2.2.2 rfl
  refine ⟨h1.1, g1.1, by decide, ?_, g1.2.2, by decide, h2.1, h2.2.1, g2.1, by decide,
    g2.2.1, by decide⟩
  rw [g1.2.1]
  decide

/-- Result of the one HTTP GET in `fetch_and_save_avatar`: a streamed
2xx response, or any `requests.exceptions.RequestException` (connection
failure or the `raise_for_status` of a non-2xx response). -/
inductive NetResult where
  | success
  | failure
deriving DecidableEq

/-- The world `fetch_and_save_avatar` touches: how many HTTP requests
have been issued, which avatar files have been written, and the tracking
file. -/
structure AvWorld where
  netCalls : Nat
  files : List String
  store : StoreFile
deriving DecidableEq

/-- `fetch_and_save_avatar` (avatar.py:10-71).  An empty `input_string`
is rejected locally before the URL is built.  Otherwise the GET runs;
on success the body is written to
`absolute(output_dir)/<timestamp>.png` (an `IOError` during the write
yields failure), and when `expiration_days` is given,
`add_expiry_tracking` records the new file.  Returns the saved path or
`none`, with the resulting world. -/
def fetch_and_save_avatar (input_string : String) (output_dir : String)
    (expiration_days : Option Int) (timestamp : String) (net : NetResult)
    (writeOk : Bool) (now : Int) (cwd : String) (oc : WriteOutcome)
    (w : AvWorld) : Option String × AvWorld :=
  if input_string = "" then (none, w)
  else
    let filepath := absolute cwd output_dir ++ "/" ++ timestamp ++ avatarExt
    let w1 : AvWorld := ⟨w.netCalls + 1, w.files, w.store⟩
    match net with
    | .failure => (none, w1)
    | .success =>
      if writeOk then
        let w2 : AvWorld := ⟨w1.netCalls, w1.files ++ [filepath], w1.store⟩
        match expiration_days with
        | none => (some filepath, w2)
        | some d =>
          (some filepath,
            ⟨w2.netCalls, w2.files, (add_expiry_tracking cwd filepath d now w2.store oc).1⟩)
      else (none, w1)

/-- C9: an empty seed is a local validation failure —
`fetch_and_save_avatar` returns `none` and the world is untouched: no
network call is issued, no file is written, and the tracking file is
left exactly as it was. -/
theorem empty_seed_no_side_effects (output_dir timestamp cwd : String)
    (expiration_days : Option Int) (net : NetResult) (writeOk : Bool)
    (now : Int) (oc : WriteOutcome) (w : AvWorld) :
    fetch_and_save_avatar "" output_dir expiration_days timestamp net writeOk
      now cwd oc w = (none, w) := by
  simp [fetch_and_save_avatar]

end Avatar
